import Mathlib

/-!
# Verification of the wow-sync coordination core

Shallow embedding of the state machine, frame codec, command router,
idle-schedule cursor, broadcast registry and connection supervisor of
`src/wowsync-client.py` and `src/wowsync-server.py`, together with proofs
of the specification's testable properties.

Time values (`time.time()` readings) are modelled as rationals `ℚ`;
byte values as `Nat` (each byte `< 256` where it matters); the external
input-injection collaborator's outcome as a `Bool` parameter.
-/

namespace WowSync

/-! ## Action State Machine — `StateManager`, src/wowsync-client.py lines 258-297 -/

/-- State of `StateManager.__init__` plus its mutable fields.
`current_state` is the literal string the code stores (`"idle"` or
`"active_<window>"`). -/
structure StateManager where
  current_state : String
  last_action_time : ℚ
  action_cooldown : ℚ
  idle_timeout : ℚ
  active_window : Option String
deriving DecidableEq, Repr

/-- `StateManager.__init__` (lines 261-266): idle, timestamp 0, cooldown 2 s,
idle timeout 10 s, no active window. -/
def StateManager.init : StateManager :=
  { current_state := "idle"
    last_action_time := 0
    action_cooldown := 2
    idle_timeout := 10
    active_window := none }

/-- `StateManager.can_execute_action` (lines 268-270):
`time.time() - self.last_action_time >= self.action_cooldown`.
`now` stands for the `time.time()` reading. -/
def StateManager.can_execute_action (s : StateManager) (now : ℚ) : Bool :=
  decide (s.action_cooldown ≤ now - s.last_action_time)

/-- `StateManager.set_active_window` (lines 272-277): sets
`current_state = f"active_{window_key}"`, records the window and stamps
`last_action_time = time.time()` (passed as `now`). -/
def StateManager.set_active_window (s : StateManager) (window_key : String) (now : ℚ) :
    StateManager :=
  { s with
    current_state := "active_" ++ window_key
    active_window := some window_key
    last_action_time := now }

/-- `StateManager.set_idle` (lines 279-283): resets `current_state` and
`active_window` only. -/
def StateManager.set_idle (s : StateManager) : StateManager :=
  { s with
    current_state := "idle"
    active_window := none }

/-- `StateManager.is_idle` (lines 285-287). -/
def StateManager.is_idle (s : StateManager) : Bool :=
  s.current_state == "idle"

/-- `StateManager.should_return_to_idle` (lines 289-293): false while idle,
otherwise `time.time() - self.last_action_time >= self.idle_timeout`. -/
def StateManager.should_return_to_idle (s : StateManager) (now : ℚ) : Bool :=
  if s.is_idle then false
  else decide (s.idle_timeout ≤ now - s.last_action_time)

/-- `StateManager.get_current_state` (lines 295-297). -/
def StateManager.get_current_state (s : StateManager) : String :=
  s.current_state

/-! ### Call traces over the state machine

A trace is the sequence of `transition_active` / `transition_idle` calls
(`set_active_window` / `set_idle` in the code), each `transition_active`
carrying the `time.time()` value observed inside it. -/

/-- One state-machine call: `transition_active(window)` at time `t`, or
`transition_idle` at time `t` (the time is irrelevant to `set_idle`). -/
inductive SMEvent
  | tActive (window_key : String) (t : ℚ)
  | tIdle (t : ℚ)
deriving DecidableEq, Repr

/-- Apply one call to a state. -/
def applyEvent (s : StateManager) : SMEvent → StateManager
  | .tActive w t => s.set_active_window w t
  | .tIdle _ => s.set_idle

/-- Run a call trace from the freshly constructed `StateManager`. -/
def runTrace (evs : List SMEvent) : StateManager :=
  evs.foldl applyEvent StateManager.init

/-- Timestamp of the most recent `transition_active` in the trace, carrying
an accumulator for the most recent one seen so far. -/
def lastActiveTimeFrom (acc : Option ℚ) : List SMEvent → Option ℚ
  | [] => acc
  | .tActive _ t :: rest => lastActiveTimeFrom (some t) rest
  | .tIdle _ :: rest => lastActiveTimeFrom acc rest

/-- Timestamp of the most recent `transition_active` in the trace, if any. -/
def lastActiveTime (evs : List SMEvent) : Option ℚ :=
  lastActiveTimeFrom none evs

/-! ## Frame Codec — inline in `AsyncClient.send_message` (lines 447-461) and
the read loops (`AsyncClient.connect_to_server` lines 414-423,
`WowSyncServer.handle_client` lines 76-85).  Bytes are `Nat` values;
the payload is the UTF-8 byte list of the message text. -/

/-- `message_length.to_bytes(4, byteorder='big')` (line 459): the four
big-endian base-256 digits of `n` (defined for `n < 2^32`; Python raises
`OverflowError` above that). -/
def toBytesBE4 (n : Nat) : List Nat :=
  [n / 16777216 % 256, n / 65536 % 256, n / 256 % 256, n % 256]

/-- `int.from_bytes(length_data, byteorder='big')` (line 419). -/
def fromBytesBE (bs : List Nat) : Nat :=
  bs.foldl (fun acc b => acc * 256 + b) 0

/-- `send_message` framing (lines 455-460): 4-byte big-endian length prefix
followed by the payload bytes. -/
def encodeFrame (payload : List Nat) : List Nat :=
  toBytesBE4 payload.length ++ payload

/-- The read side (lines 414-422): `readexactly(4)` — failing (`none`) when
fewer than 4 bytes are available — then `readexactly(length)`, failing when
the stream closes before the declared length is satisfied.  Returns the
payload and the unconsumed remainder of the stream. -/
def decodeFrame (stream : List Nat) : Option (List Nat × List Nat) :=
  if stream.length < 4 then none
  else if (stream.drop 4).length < fromBytesBE (stream.take 4) then none
  else some ((stream.drop 4).take (fromBytesBE (stream.take 4)),
             (stream.drop 4).drop (fromBytesBE (stream.take 4)))

/-! ## Command Router — `AsyncClient.handle_server_message` (lines 470-510) -/

/-- A response message as built on lines 484-488 / 499-504.  The cooldown
response carries no `state` key, hence `state : Option String`. -/
structure Response where
  status : String
  window : String
  action : String
  state : Option String
deriving DecidableEq, Repr

/-- The outcome of `json.loads` plus the three `data.get` reads
(lines 473-476): either the payload failed to parse (`malformed`, raising
inside the handler's `try`), or an object with optional `command`,
`window` and `action` fields. -/
inductive ServerMsg
  | malformed
  | obj (command : Option String) (window : Option String) (action : Option String)
deriving DecidableEq, Repr

/-- `AsyncClient.handle_server_message` (lines 470-510) as a pure function:
`now` is the `time.time()` reading, `execSuccess` the outcome of the
external input-injection collaborator (`ActionHandler.execute_action`,
which catches its own exceptions and returns a Bool).  Returns the
resulting state-machine state and the list of responses sent.  Any
exception (unparseable payload) is caught on line 509-510: no response,
no state change.  A missing `command`/`window`, a non-`execute` command
or a falsy (empty) `window` fail the guard on line 478: no response,
no state change. -/
def handle_server_message (msg : ServerMsg) (st : StateManager) (now : ℚ)
    (execSuccess : Bool) : StateManager × List Response :=
  match msg with
  | .malformed => (st, [])
  | .obj command window action =>
    let act := action.getD "f1_action"
    match window with
    | none => (st, [])
    | some w =>
      if command = some "execute" ∧ w ≠ "" then
        if st.can_execute_action now = false then
          (st, [{ status := "cooldown", window := w, action := act, state := none }])
        else
          (st.set_active_window w now,
            [{ status := if execSuccess then "success" else "error"
               window := w
               action := act
               state := some ((st.set_active_window w now).get_current_state) }])
      else (st, [])

/-- The guard on line 478 (`command == 'execute' and window`, with `window`
truthy meaning present and non-empty), including parse success. -/
def isWellFormedExec : ServerMsg → Bool
  | .malformed => false
  | .obj command window _ =>
    (command == some "execute") &&
      (match window with
       | some w => w != ""
       | none => false)

/-! ## Schedule cursor — `IdleManager.start_idle_mode` (lines 311-350):
selection `windows[self.current_window_index % len(windows)]` (line 331)
and advance `self.current_window_index = (self.current_window_index + 1)
% len(windows)` (line 344). -/

/-- One cursor advance over `n` targets (line 344). -/
def advanceCursor (n : Nat) (i : Nat) : Nat := (i + 1) % n

/-- `k` successive cursor advances starting from index `i`. -/
def cursorIter (n : Nat) : Nat → Nat → Nat
  | 0, i => i
  | k + 1, i => cursorIter n k (advanceCursor n i)

/-! ## Client Registry broadcast — `WowSyncServer.send_to_all_clients`
(src/wowsync-server.py lines 99-123).  Connections are modelled by `Nat`
ids; `fails c = true` means the write to connection `c` raises. -/

/-- The write loop (lines 111-118): visit every registered connection in
order; a successful write delivers the frame, a failing write adds the
connection to `disconnected_clients`.  Returns
`(delivered, disconnected)` in registry order. -/
def broadcastWrites (fails : Nat → Bool) : List Nat → List Nat × List Nat
  | [] => ([], [])
  | c :: rest =>
    let p := broadcastWrites fails rest
    if fails c then (p.1, c :: p.2) else (c :: p.1, p.2)

/-- `send_to_all_clients` (lines 99-123): early return when no clients are
registered; otherwise write to every client, then — only after the
iteration completes — remove each collected failure from the registry
(`self.clients.remove(client)` guarded by membership, lines 121-123).
Returns the new registry and the list of connections that received the
frame. -/
def send_to_all_clients (clients : List Nat) (fails : Nat → Bool) :
    List Nat × List Nat :=
  if clients.isEmpty then (clients, [])
  else
    ((broadcastWrites fails clients).2.foldl (fun cs c => cs.erase c) clients,
     (broadcastWrites fails clients).1)

/-! ## Connection Supervisor — `AsyncClient.connect_to_server`
(lines 397-445).  One `NetEvent` describes how one iteration of the outer
`while True` loop goes: either `asyncio.open_connection` raises
(`openFail`), or it succeeds and the inner read loop dispatches `reads`
frames before the read fails (server drop), which `break`s out of the
inner loop (lines 427-432).  After a drop the outer `try` body completes
WITHOUT an exception, so the `except` block (lines 434-445: set
`self.connected = False`, close the writer, sleep 5 s) does not run and
the loop re-enters the connect attempt immediately. -/

/-- Environment outcome of one outer-loop iteration. -/
inductive NetEvent
  | openFail
  | openOk (reads : Nat)
deriving DecidableEq, Repr

/-- Observable actions of the supervisor loop body. -/
inductive SupAct
  | tryConnect
  | enterConnected
  | dispatch
  | dropDetected
  | sleepFive
deriving DecidableEq, Repr

/-- One iteration of the outer `while True` body (lines 399-445), returning
the value of `self.connected` afterwards and the actions performed, in
order.  On `openFail` the `except` path runs: `connected := False`, then
the 5-second sleep.  On `openOk` the flag is set `True` (line 408), each
frame is dispatched, the drop `break`s the inner loop and the iteration
ends with no sleep and the flag still `True`. -/
def iterBody (_connected : Bool) : NetEvent → Bool × List SupAct
  | .openFail => (false, [.tryConnect, .sleepFive])
  | .openOk n =>
    (true, [.tryConnect, .enterConnected] ++ List.replicate n .dispatch ++ [.dropDetected])

/-- The outer `while True` loop run against a finite schedule of environment
outcomes: one connect attempt per outcome, never exiting early. -/
def supRun (connected : Bool) : List NetEvent → Bool × List SupAct
  | [] => (connected, [])
  | e :: es =>
    ((supRun (iterBody connected e).1 es).1,
     (iterBody connected e).2 ++ (supRun (iterBody connected e).1 es).2)
/-! ### Trace invariants -/

theorem lastActiveTimeFrom_acc (evs : List SMEvent) :
    ∀ acc : Option ℚ, lastActiveTimeFrom acc evs =
      (match lastActiveTimeFrom none evs with
       | some t => some t
       | none => acc) := by
  induction evs with
  | nil => intro acc; simp [lastActiveTimeFrom]
  | cons e rest ih =>
    intro acc
    cases e with
    | tActive w t =>
      simp only [lastActiveTimeFrom]
      rw [ih (some t)]
      cases lastActiveTimeFrom none rest <;> simp
    | tIdle t =>
      simp only [lastActiveTimeFrom]
      rw [ih acc]

theorem foldl_applyEvent_cooldown (evs : List SMEvent) :
    ∀ s : StateManager, (evs.foldl applyEvent s).action_cooldown = s.action_cooldown := by
  induction evs with
  | nil => intro s; rfl
  | cons e rest ih =>
    intro s
    cases e <;> simp only [List.foldl_cons, applyEvent] <;>
      rw [ih] <;> rfl

theorem foldl_applyEvent_idle_timeout (evs : List SMEvent) :
    ∀ s : StateManager, (evs.foldl applyEvent s).idle_timeout = s.idle_timeout := by
  induction evs with
  | nil => intro s; rfl
  | cons e rest ih =>
    intro s
    cases e <;> simp only [List.foldl_cons, applyEvent] <;>
      rw [ih] <;> rfl

theorem foldl_applyEvent_last_action_time (evs : List SMEvent) :
    ∀ s : StateManager, (evs.foldl applyEvent s).last_action_time =
      (match lastActiveTime evs with
       | some t => t
       | none => s.last_action_time) := by
  induction evs with
  | nil => intro s; rfl
  | cons e rest ih =>
    intro s
    cases e with
    | tActive w t =>
      simp only [List.foldl_cons, applyEvent, lastActiveTime, lastActiveTimeFrom]
      rw [ih, lastActiveTimeFrom_acc rest (some t)]
      cases h : lastActiveTimeFrom none rest <;>
        simp [lastActiveTime, h, StateManager.set_active_window]
    | tIdle t =>
      simp only [List.foldl_cons, applyEvent, lastActiveTime, lastActiveTimeFrom]
      rw [ih]
      cases h : lastActiveTimeFrom none rest <;>
        simp [lastActiveTime, h, StateManager.set_idle]

theorem runTrace_last_action_time (evs : List SMEvent) :
    (runTrace evs).last_action_time =
      (match lastActiveTime evs with
       | some t => t
       | none => 0) := by
  rw [runTrace, foldl_applyEvent_last_action_time]
  rfl

theorem runTrace_cooldown (evs : List SMEvent) :
    (runTrace evs).action_cooldown = 2 := by
  rw [runTrace, foldl_applyEvent_cooldown]; rfl

theorem runTrace_idle_timeout (evs : List SMEvent) :
    (runTrace evs).idle_timeout = 10 := by
  rw [runTrace, foldl_applyEvent_idle_timeout]; rfl

/-- `"active_" ++ w` is never the string `"idle"`. -/
theorem active_state_ne_idle (w : String) : ("active_" ++ w) ≠ "idle" := by
  intro h
  have hlen : ("active_" ++ w).length = "idle".length := by rw [h]
  rw [String.length_append] at hlen
  have h1 : "active_".length = 7 := rfl
  have h2 : "idle".length = 4 := rfl
  rw [h1, h2] at hlen
  omega

/-- If the trace contains no `transition_active`, the resulting state is idle. -/
theorem runTrace_no_active_is_idle (evs : List SMEvent) :
    lastActiveTime evs = none → (runTrace evs).is_idle = true := by
  induction evs with
  | nil => intro _; rfl
  | cons e rest ih =>
    intro h
    cases e with
    | tActive w t =>
      exfalso
      simp only [lastActiveTime, lastActiveTimeFrom] at h
      rw [lastActiveTimeFrom_acc rest (some t)] at h
      cases hx : lastActiveTimeFrom none rest <;> simp [hx] at h
    | tIdle t =>
      simp only [lastActiveTime, lastActiveTimeFrom] at h
      have : runTrace (SMEvent.tIdle t :: rest) = rest.foldl applyEvent StateManager.init := by
        simp only [runTrace, List.foldl_cons, applyEvent]
        rfl
      rw [this]
      exact ih h

/-- If the resulting state is not idle, some `transition_active` occurred and
the state's `active_window` is set. -/
theorem runTrace_not_idle_some_active (evs : List SMEvent) :
    (runTrace evs).is_idle = false → ∃ t, lastActiveTime evs = some t := by
  intro h
  cases hx : lastActiveTime evs with
  | none =>
    rw [runTrace_no_active_is_idle evs hx] at h
    exact absurd h (by simp)
  | some t => exact ⟨t, rfl⟩

/-! ## Claim C1 — cooldown behaviour of `can_execute` over call traces -/

/-- Claim C1, counterexample.  The claim says `can_execute()` is true
whenever no `transition_active` has occurred yet.  But `__init__` sets
`last_action_time = 0`, so on the empty call trace a query at time 1
(within 2 seconds of the timestamp origin) returns false. -/
theorem can_execute_before_any_active_counterexample :
    lastActiveTime [] = none ∧ (runTrace []).can_execute_action 1 = false := by
  refine ⟨rfl, ?_⟩
  rw [show runTrace [] = StateManager.init from rfl]
  simp only [StateManager.can_execute_action, StateManager.init,
    decide_eq_false_iff_not, not_le]
  norm_num

/-- Claim C1, amended.  For every sequence of `transition_active` /
`transition_idle` calls, `can_execute()` returns false exactly when the
current time is within `cooldown_window` (2 seconds) of the most recent
`transition_active`; when no `transition_active` has occurred,
`can_execute()` is false exactly when the current time is within
`cooldown_window` of the timestamp origin 0 to which
`last_action_time` is initialized. -/
theorem can_execute_iff_cooldown_elapsed (evs : List SMEvent) (now : ℚ) :
    (runTrace evs).can_execute_action now = false ↔
      (match lastActiveTime evs with
       | some t => now - t < 2
       | none => now < 2) := by
  simp only [StateManager.can_execute_action, runTrace_cooldown,
    runTrace_last_action_time, decide_eq_false_iff_not, not_le]
  cases lastActiveTime evs <;> simp

/-! ## Claim C2 — idle-return timeout -/

/-- Claim C2.  `should_return_idle()` is true iff the state is Active
(not idle) and at least `idle_timeout` (10 seconds) has elapsed since the
most recent `transition_active` (whose timestamp is what
`last_action_time` holds while Active); it is always false while Idle. -/
theorem should_return_idle_iff (evs : List SMEvent) (now : ℚ) :
    ((runTrace evs).is_idle = true → (runTrace evs).should_return_to_idle now = false) ∧
    ((runTrace evs).should_return_to_idle now = true ↔
      (runTrace evs).is_idle = false ∧
        ∃ t, lastActiveTime evs = some t ∧ 10 ≤ now - t) := by
  cases h : (runTrace evs).is_idle with
  | true =>
    refine ⟨fun _ => ?_, ?_⟩
    · simp [StateManager.should_return_to_idle, h]
    · simp [StateManager.should_return_to_idle, h]
  | false =>
    obtain ⟨t, ht⟩ := runTrace_not_idle_some_active evs h
    refine ⟨fun hcontra => absurd hcontra (by simp), ?_⟩
    · simp [StateManager.should_return_to_idle, h, runTrace_idle_timeout,
        runTrace_last_action_time, ht]

/-- Claim C2, witness: freshly `transition_active("window2")` at time 0 and
queried at time 10, `should_return_to_idle` is true. -/
theorem should_return_idle_iff_witness :
    (runTrace [SMEvent.tActive "window2" 0]).should_return_to_idle 10 = true :=
  (should_return_idle_iff [SMEvent.tActive "window2" 0] 10).2.mpr
    ⟨by decide, 0, rfl, by norm_num⟩

/-! ## Claim C9 — frame effect of `set_idle` -/

/-- Claim C9.  `set_idle` changes only `current_state` and `active_window`;
`last_action_time`, `action_cooldown` and `idle_timeout` keep their prior
values, so `can_execute_action` is unchanged by reverting to idle, and in
particular after `set_active_window w t` followed by `set_idle` the
cooldown is still measured from `t`. -/
theorem set_idle_frame_effect (s : StateManager) (w : String) (t now : ℚ) :
    s.set_idle.last_action_time = s.last_action_time ∧
    s.set_idle.action_cooldown = s.action_cooldown ∧
    s.set_idle.idle_timeout = s.idle_timeout ∧
    s.set_idle.current_state = "idle" ∧
    s.set_idle.active_window = none ∧
    s.set_idle.can_execute_action now = s.can_execute_action now ∧
    ((s.set_active_window w t).set_idle).can_execute_action now =
      decide (s.action_cooldown ≤ now - t) :=
  ⟨rfl, rfl, rfl, rfl, rfl, rfl, rfl⟩

/-! ## Claim C3 — frame round-trip -/

theorem fromBytesBE_toBytesBE4 (n : Nat) (h : n < 4294967296) :
    fromBytesBE (toBytesBE4 n) = n := by
  simp only [fromBytesBE, toBytesBE4, List.foldl]
  omega

/-- Claim C3.  For every payload of length below `2^32` (Python's
`to_bytes(4, ...)` bound, far above practical message sizes), decoding the
encoded frame yields exactly the payload, with nothing left over. -/
theorem decode_encode_roundtrip (p : List Nat) (h : p.length < 4294967296) :
    decodeFrame (encodeFrame p) = some (p, []) := by
  have htake : (encodeFrame p).take 4 = toBytesBE4 p.length := by
    simp [encodeFrame, toBytesBE4]
  have hdrop : (encodeFrame p).drop 4 = p := by
    simp [encodeFrame, toBytesBE4]
  have hlen : (encodeFrame p).length = 4 + p.length := by
    simp [encodeFrame, toBytesBE4]
    omega
  rw [decodeFrame, htake, hdrop, hlen, fromBytesBE_toBytesBE4 p.length h,
    if_neg (by omega), if_neg (by omega)]
  rw [List.take_length, List.drop_length]

/-- Claim C3, witness at the three-byte payload `[104, 105, 33]`. -/
theorem decode_encode_roundtrip_witness :
    ([104, 105, 33] : List Nat).length < 4294967296 ∧
      decodeFrame (encodeFrame [104, 105, 33]) = some ([104, 105, 33], []) :=
  ⟨by decide, decode_encode_roundtrip [104, 105, 33] (by decide)⟩

/-! ## Claim C4 — cooldown reply leaves the state machine unchanged -/

/-- Claim C4.  An `execute` command for a non-empty window, arriving while
`can_execute()` is false, is answered with
`{status: cooldown, window, action}` (no `state` key) and the state
machine is returned unchanged: state string, active window and
last-action timestamp all keep their prior values. -/
theorem cooldown_reply_no_state_change (st : StateManager) (now : ℚ)
    (window action : Option String) (execSuccess : Bool) (w : String)
    (hw : window = some w) (hwne : w ≠ "")
    (hcool : st.can_execute_action now = false) :
    handle_server_message (.obj (some "execute") window action) st now execSuccess =
      (st, [{ status := "cooldown", window := w,
              action := action.getD "f1_action", state := none }]) ∧
    (handle_server_message (.obj (some "execute") window action) st now
        execSuccess).1.current_state = st.current_state ∧
    (handle_server_message (.obj (some "execute") window action) st now
        execSuccess).1.active_window = st.active_window ∧
    (handle_server_message (.obj (some "execute") window action) st now
        execSuccess).1.last_action_time = st.last_action_time := by
  subst hw
  have hmain :
      handle_server_message (.obj (some "execute") (some w) action) st now execSuccess =
        (st, [{ status := "cooldown", window := w,
                action := action.getD "f1_action", state := none }]) := by
    simp [handle_server_message, hwne, hcool]
  exact ⟨hmain, by rw [hmain], by rw [hmain], by rw [hmain]⟩

/-- Claim C4, witness — the spec's cooldown scenario: state freshly set
`Active("window1")` at time 0; half a second later an execute command for
`window1` with action `f1_action` arrives and is answered with the
cooldown response while the state machine is untouched. -/
theorem cooldown_reply_no_state_change_witness :
    handle_server_message (.obj (some "execute") (some "window1") (some "f1_action"))
        (StateManager.init.set_active_window "window1" 0) (1 / 2) true =
      (StateManager.init.set_active_window "window1" 0,
        [{ status := "cooldown", window := "window1", action := "f1_action",
           state := none }]) :=
  (cooldown_reply_no_state_change
    (StateManager.init.set_active_window "window1" 0) (1 / 2)
    (some "window1") (some "f1_action") true "window1" rfl (by decide)
    (by simp only [StateManager.can_execute_action, StateManager.set_active_window,
          StateManager.init, decide_eq_false_iff_not, not_le]
        norm_num)).1

/-! ## Claim C5 — execute path transitions first, reply reflects outcome -/

/-- Claim C5.  An `execute` command for a non-empty window, arriving while
`can_execute()` is true, first performs the transition to
`Active(window)` — the resulting state is `set_active_window` regardless
of whether action execution succeeds — and replies
`{status: success|error, window, action, state}` with `status` reflecting
the execution outcome and `state` the post-transition state string. -/
theorem execute_transitions_then_replies (st : StateManager) (now : ℚ)
    (window action : Option String) (execSuccess : Bool) (w : String)
    (hw : window = some w) (hwne : w ≠ "")
    (hcool : st.can_execute_action now = true) :
    handle_server_message (.obj (some "execute") window action) st now execSuccess =
      (st.set_active_window w now,
        [{ status := if execSuccess then "success" else "error",
           window := w, action := action.getD "f1_action",
           state := some ("active_" ++ w) }]) ∧
    (st.set_active_window w now).current_state = "active_" ++ w ∧
    (st.set_active_window w now).active_window = some w ∧
    (st.set_active_window w now).last_action_time = now := by
  subst hw
  refine ⟨?_, rfl, rfl, rfl⟩
  simp [handle_server_message, hwne, hcool, StateManager.get_current_state,
    StateManager.set_active_window]

/-- Claim C5, witness — the spec's fresh-command scenario: from the initial
idle state at time 10, `execute {window: "window2", action: "f2_action"}`
with successful injection transitions to `Active("window2")` and replies
`{status: "success", window: "window2", action: "f2_action",
state: "active_window2"}`; with failing injection the same transition is
recorded and the status is `"error"`. -/
theorem execute_transitions_then_replies_witness :
    handle_server_message (.obj (some "execute") (some "window2") (some "f2_action"))
        StateManager.init 10 true =
      (StateManager.init.set_active_window "window2" 10,
        [{ status := "success", window := "window2", action := "f2_action",
           state := some "active_window2" }]) ∧
    handle_server_message (.obj (some "execute") (some "window2") (some "f2_action"))
        StateManager.init 10 false =
      (StateManager.init.set_active_window "window2" 10,
        [{ status := "error", window := "window2", action := "f2_action",
           state := some "active_window2" }]) := by
  have hcool : StateManager.init.can_execute_action 10 = true := by
    simp only [StateManager.can_execute_action, StateManager.init,
      decide_eq_true_eq]
    norm_num
  refine ⟨?_, ?_⟩
  · exact (execute_transitions_then_replies StateManager.init 10
      (some "window2") (some "f2_action") true "window2" rfl (by decide) hcool).1
  · exact (execute_transitions_then_replies StateManager.init 10
      (some "window2") (some "f2_action") false "window2" rfl (by decide) hcool).1

/-! ## Claim C10 — malformed or non-execute messages have no effect -/

/-- Claim C10.  Any inbound message that is not a well-formed execute
command — unparseable payload, a command other than `execute`, or a
missing/empty window field — produces no response and leaves the state
machine unchanged. -/
theorem malformed_message_no_effect (msg : ServerMsg) (st : StateManager)
    (now : ℚ) (execSuccess : Bool) (h : isWellFormedExec msg = false) :
    handle_server_message msg st now execSuccess = (st, []) := by
  cases msg with
  | malformed => rfl
  | obj command window action =>
    cases window with
    | none => rfl
    | some w =>
      simp only [handle_server_message]
      rw [if_neg]
      rintro ⟨h1, h2⟩
      rw [h1] at h
      simp [isWellFormedExec, h2] at h

/-- Claim C10, witness: an unparseable payload, a `status` (non-execute)
command, a message with no window, and an execute with an empty window
all leave the freshly-initialized state machine unchanged and send
nothing. -/
theorem malformed_message_no_effect_witness :
    handle_server_message .malformed StateManager.init 0 true =
      (StateManager.init, []) ∧
    handle_server_message (.obj (some "status") (some "window1") none)
        StateManager.init 0 true = (StateManager.init, []) ∧
    handle_server_message (.obj (some "execute") none (some "f1_action"))
        StateManager.init 0 true = (StateManager.init, []) ∧
    handle_server_message (.obj (some "execute") (some "") none)
        StateManager.init 0 true = (StateManager.init, []) :=
  ⟨malformed_message_no_effect _ _ _ _ (by decide),
   malformed_message_no_effect _ _ _ _ (by decide),
   malformed_message_no_effect _ _ _ _ (by decide),
   malformed_message_no_effect _ _ _ _ (by decide)⟩

/-! ## Claim C6 — schedule-cursor periodicity -/

theorem cursorIter_eq_mod (n : Nat) (hn : 0 < n) (k : Nat) :
    ∀ i, i < n → cursorIter n k i = (i + k) % n := by
  induction k with
  | zero => intro i hi; simp [cursorIter, Nat.mod_eq_of_lt hi]
  | succ k ih =>
    intro i hi
    rw [cursorIter, advanceCursor, ih ((i + 1) % n) (Nat.mod_lt _ hn),
      Nat.mod_add_mod]
    congr 1
    omega

/-- Claim C6.  Over `n ≥ 1` configured targets, the cursor starting at 0
returns to 0 after exactly `n` single-step advances — it is at position
`k` (so nonzero) after `k < n` advances — and the positions visited over
one full cycle are exactly `0, 1, …, n-1` in order: no target is skipped
or repeated. -/
theorem cursor_periodicity (n : Nat) (hn : 0 < n) :
    cursorIter n n 0 = 0 ∧
    (∀ k, k < n → cursorIter n k 0 = k) ∧
    (∀ k, 0 < k → k < n → cursorIter n k 0 ≠ 0) ∧
    (List.range n).map (fun k => cursorIter n k 0) = List.range n := by
  have hk : ∀ k, k < n → cursorIter n k 0 = k := by
    intro k hkn
    rw [cursorIter_eq_mod n hn k 0 hn, Nat.zero_add, Nat.mod_eq_of_lt hkn]
  refine ⟨?_, hk, ?_, ?_⟩
  · rw [cursorIter_eq_mod n hn n 0 hn, Nat.zero_add, Nat.mod_self]
  · intro k h0 hkn
    rw [hk k hkn]
    omega
  · rw [List.map_congr_left fun k hmem => hk k (List.mem_range.mp hmem)]
    exact List.map_id _

/-- Claim C6, witness over three targets: the cursor visits 0, 1, 2 and is
back at 0 after exactly three advances. -/
theorem cursor_periodicity_witness :
    cursorIter 3 3 0 = 0 ∧ cursorIter 3 1 0 = 1 ∧ cursorIter 3 2 0 = 2 ∧
      (List.range 3).map (fun k => cursorIter 3 k 0) = List.range 3 :=
  ⟨(cursor_periodicity 3 (by decide)).1,
   (cursor_periodicity 3 (by decide)).2.1 1 (by decide),
   (cursor_periodicity 3 (by decide)).2.1 2 (by decide),
   (cursor_periodicity 3 (by decide)).2.2.2⟩

/-! ## Claim C7 — broadcast resilience -/

theorem broadcastWrites_eq_filter (fails : Nat → Bool) (l : List Nat) :
    broadcastWrites fails l = (l.filter (fun c => !fails c), l.filter fails) := by
  induction l with
  | nil => rfl
  | cons c rest ih =>
    simp only [broadcastWrites, ih]
    cases h : fails c <;> simp [List.filter, h]

theorem filter_fails_eq_single (l : List Nat) (c : Nat) (fails : Nat → Bool)
    (hnd : l.Nodup) (hc : c ∈ l) (hf : ∀ x ∈ l, fails x = true ↔ x = c) :
    l.filter fails = [c] := by
  induction l with
  | nil => cases hc
  | cons a rest ih =>
    rw [List.nodup_cons] at hnd
    by_cases hac : a = c
    · subst hac
      have hfa : fails a = true := (hf a (by simp)).mpr rfl
      have hrest : rest.filter fails = [] := by
        rw [List.filter_eq_nil_iff]
        intro x hx hfx
        exact hnd.1 ((hf x (by simp [hx])).mp hfx ▸ hx)
      simp [List.filter, hfa, hrest]
    · have hfa : fails a = false := by
        cases hfan : fails a with
        | false => rfl
        | true => exact absurd ((hf a (by simp)).mp hfan) hac
      have hcrest : c ∈ rest := by
        cases List.mem_cons.mp hc with
        | inl h => exact absurd h.symm hac
        | inr h => exact h
      rw [List.filter_cons_of_neg (by simp [hfa])]
      exact ih hnd.2 hcrest fun x hx => hf x (by simp [hx])

theorem broadcast_no_failures (l : List Nat) :
    send_to_all_clients l (fun _ => false) = (l, l) := by
  cases l with
  | nil => rfl
  | cons a rest =>
    simp [send_to_all_clients, broadcastWrites_eq_filter, List.filter]

/-- Claim C7.  With a `Nodup` registry of `k` connections among which the
write to exactly `c` fails, the broadcast writes the frame to every other
connection (all of `clients.erase c`, in registry order — the registry is
iterated in full, unmutated), removes `c` only after the iteration, so the
new registry is `clients.erase c` with `k - 1` entries, and a subsequent
failure-free broadcast delivers to exactly those `k - 1` connections. -/
theorem broadcast_one_failure (clients : List Nat) (c : Nat) (fails : Nat → Bool)
    (hnd : clients.Nodup) (hc : c ∈ clients)
    (hf : ∀ x ∈ clients, fails x = true ↔ x = c) :
    (send_to_all_clients clients fails).2 = clients.erase c ∧
    (send_to_all_clients clients fails).1 = clients.erase c ∧
    (send_to_all_clients clients fails).1.length + 1 = clients.length ∧
    (send_to_all_clients (send_to_all_clients clients fails).1
        (fun _ => false)).2 = (send_to_all_clients clients fails).1 := by
  have hne : clients.isEmpty = false := by
    cases clients with
    | nil => cases hc
    | cons a rest => rfl
  have hfail1 : clients.filter fails = [c] := filter_fails_eq_single clients c fails hnd hc hf
  have hdeliv : clients.filter (fun x => !fails x) = clients.erase c := by
    rw [hnd.erase_eq_filter]
    apply List.filter_congr
    intro x hx
    cases hfx : fails x with
    | false =>
      have hxc : x ≠ c := by
        intro hxc
        exact absurd ((hf x hx).mpr hxc) (by simp [hfx])
      simp [hfx, bne_iff_ne, hxc]
    | true =>
      simp [bne_iff_ne, (hf x hx).mp hfx]
  have hout : send_to_all_clients clients fails =
      (clients.erase c, clients.erase c) := by
    rw [send_to_all_clients, if_neg (by simp [hne]), broadcastWrites_eq_filter,
      hfail1, hdeliv]
    rfl
  refine ⟨by rw [hout], by rw [hout], ?_, ?_⟩
  · rw [hout]
    show (clients.erase c).length + 1 = clients.length
    have := List.length_erase_of_mem hc
    have hpos : 0 < clients.length := List.length_pos_of_mem hc
    omega
  · rw [hout]
    exact congrArg Prod.snd (broadcast_no_failures (clients.erase c))

/-- Claim C7, witness: registry `[1, 2, 3]` where the write to 2 fails —
1 and 3 still receive this broadcast, the new registry is `[1, 3]`, and a
subsequent broadcast reaches both. -/
theorem broadcast_one_failure_witness :
    (send_to_all_clients [1, 2, 3] (fun x => x == 2)).2 = [1, 3] ∧
    (send_to_all_clients [1, 2, 3] (fun x => x == 2)).1 = [1, 3] ∧
    (send_to_all_clients [1, 3] (fun _ => false)).2 = [1, 3] := by
  have h := broadcast_one_failure [1, 2, 3] 2 (fun x => x == 2)
    (by decide) (by decide) (by decide)
  have herase : ([1, 2, 3] : List Nat).erase 2 = [1, 3] := by decide
  refine ⟨?_, ?_, ?_⟩
  · rw [h.1, herase]
  · rw [h.2.1, herase]
  · have h4 := h.2.2.2
    rw [h.2.1, herase] at h4
    exact h4

/-! ## Claim C8 — reconnect behaviour of the Connection Supervisor -/

/-- Claim C8, counterexample.  When the connection drops while Connected
(the inner read loop `break`s on `IncompleteReadError`), the outer `try`
body completes without raising, so the `except` block never runs: the
`connected` flag stays `True` (no transition to Disconnected) and no
5-second sleep occurs before the next connect attempt. -/
theorem reconnect_drop_counterexample :
    (iterBody true (NetEvent.openOk 0)).1 = true ∧
    SupAct.sleepFive ∉ (iterBody true (NetEvent.openOk 0)).2 := by
  refine ⟨rfl, ?_⟩
  simp [iterBody]

theorem supRun_count (evs : List NetEvent) : ∀ b : Bool,
    ((supRun b evs).2.count SupAct.tryConnect = evs.length ∧
     (supRun b evs).2.count SupAct.sleepFive = evs.count NetEvent.openFail) := by
  induction evs with
  | nil => intro b; exact ⟨rfl, rfl⟩
  | cons e es ih =>
    intro b
    cases e with
    | openFail =>
      obtain ⟨ih1, ih2⟩ := ih false
      refine ⟨?_, ?_⟩ <;>
        simp [supRun, iterBody, List.count_cons, ih1, ih2]
    | openOk n =>
      obtain ⟨ih1, ih2⟩ := ih true
      refine ⟨?_, ?_⟩ <;>
        simp [supRun, iterBody, List.count_cons, List.count_replicate,
          List.count_append, ih1, ih2]

/-- Claim C8, amended.  The supervisor never terminates: over any finite
schedule of outcomes it makes exactly one connect attempt per outer-loop
iteration, for any number of consecutive failures.  The fixed 5-second
sleep happens exactly once per failed connect attempt.  When the
connection drops while Connected, however, the `except` path does not
run: the `connected` flag stays `true` and the next connect attempt
begins immediately, with no sleep; only a failed connect attempt sets the
flag to `false` and sleeps 5 seconds before retrying. -/
theorem reconnect_loop_behaviour (evs : List NetEvent) (b : Bool) :
    (supRun b evs).2.count SupAct.tryConnect = evs.length ∧
    (supRun b evs).2.count SupAct.sleepFive = evs.count NetEvent.openFail ∧
    (∀ n, (iterBody true (NetEvent.openOk n)).1 = true ∧
      SupAct.sleepFive ∉ (iterBody true (NetEvent.openOk n)).2) ∧
    (iterBody true NetEvent.openFail).1 = false ∧
    SupAct.sleepFive ∈ (iterBody true NetEvent.openFail).2 := by
  refine ⟨(supRun_count evs b).1, (supRun_count evs b).2, ?_, rfl,
    by simp [iterBody]⟩
  intro n
  refine ⟨rfl, ?_⟩
  simp [iterBody, List.mem_replicate]

/-- Claim C8 (amended), witness: one session that drops after two reads
followed by two failed reconnect attempts — three connect attempts in
total, exactly two 5-second sleeps, and the flag stays `true` across the
drop. -/
theorem reconnect_loop_behaviour_witness :
    (supRun true [NetEvent.openOk 2, NetEvent.openFail,
        NetEvent.openFail]).2.count SupAct.tryConnect = 3 ∧
    (supRun true [NetEvent.openOk 2, NetEvent.openFail,
        NetEvent.openFail]).2.count SupAct.sleepFive = 2 ∧
    (iterBody true (NetEvent.openOk 2)).1 = true :=
  ⟨(reconnect_loop_behaviour
      [NetEvent.openOk 2, NetEvent.openFail, NetEvent.openFail] true).1,
   (reconnect_loop_behaviour
      [NetEvent.openOk 2, NetEvent.openFail, NetEvent.openFail] true).2.1,
   ((reconnect_loop_behaviour
      [NetEvent.openOk 2, NetEvent.openFail, NetEvent.openFail] true).2.2.1 2).1⟩

end WowSync
